import Mathlib

/-!
# FermatEngine: the GPU command stream of `init`, `step` and `render`

The engine (`src/FermatEngine.cpp`) does nothing but issue OpenGL commands; its
observable behaviour is the sequence of commands it issues and the fields of
`FermatEngine::Impl` it leaves behind.  Every member function is embedded as a
function from the `Impl` record to the new record and the list of commands it
issued, in program order.
-/

namespace FermatEngine

/-! ## Machine types -/

/-- The C `int`: 32 bits, two's complement. -/
abbrev CInt := { i : Int // -2147483648 ≤ i ∧ i ≤ 2147483647 }

/-- A `float` argument, identified by its bit pattern.  The engine never computes on a
float; it only hands the caller's value on to OpenGL. -/
structure GLfloat where
  bits : Nat
deriving DecidableEq, Repr

/-- What the sources leave to the target: `Particle` is declared in no source file, so
`sizeofParticle` stands for `sizeof(Particle)`; `size_t` and `GLsizeiptr` are pointer
sized, `sizeBits` is their width (32 on wasm32, 64 on a 64-bit desktop). -/
structure Target where
  sizeofParticle : Nat
  sizeBits : Nat

/-- Conversion of an `int` to `size_t` (value modulo `2 ^ sizeBits`). -/
def toSizeT (T : Target) (i : Int) : Nat :=
  (i % (2 ^ T.sizeBits : Int)).toNat

/-- Multiplication in `size_t`. -/
def mulSizeT (T : Target) (a b : Nat) : Nat :=
  (a * b) % 2 ^ T.sizeBits

/-- Conversion of a `size_t` to the signed `GLsizeiptr` of the same width. -/
def toGLsizeiptr (T : Target) (n : Nat) : Int :=
  if n % 2 ^ T.sizeBits < 2 ^ (T.sizeBits - 1) then (n % 2 ^ T.sizeBits : Nat)
  else (n % 2 ^ T.sizeBits : Nat) - (2 ^ T.sizeBits : Int)

/-- Conversion of a `size_t` to `GLsizei` (32 bits, signed). -/
def toGLsizei (n : Nat) : Int :=
  if n % 4294967296 < 2147483648 then (n % 4294967296 : Nat)
  else (n % 4294967296 : Nat) - 4294967296

/-- Conversion of an `int` to `GLuint` (value modulo `2 ^ 32`). -/
def toGLuint (i : Int) : Nat :=
  (i % 4294967296).toNat

/-! ## OpenGL commands -/

/-- The `GLenum` constants the engine uses. -/
inductive GLenum
  | GL_SHADER_STORAGE_BUFFER
  | GL_ARRAY_BUFFER
  | GL_DYNAMIC_DRAW
  | GL_FLOAT
  | GL_POINTS
deriving DecidableEq, Repr

/-- The `GLbitfield` constants the engine uses. -/
inductive GLbitfield
  | GL_SHADER_STORAGE_BARRIER_BIT
deriving DecidableEq, Repr

/-- One OpenGL call with its arguments, as the engine issues it.  `data` and `pointer`
are addresses (`none` is `NULL`); buffer and program names are `GLuint` handles. -/
inductive GLCmd
  | glGenBuffers (n : Int)
  | glBindBuffer (target : GLenum) (buffer : Nat)
  | glBufferData (target : GLenum) (size : Int) (data : Option Nat) (usage : GLenum)
  | glBindBufferBase (target : GLenum) (index : Nat) (buffer : Nat)
  | glUseProgram (program : Nat)
  | glUniform1f (location : Int) (v0 : GLfloat)
  | glDispatchCompute (num_groups_x num_groups_y num_groups_z : Nat)
  | glMemoryBarrier (barriers : GLbitfield)
  | glVertexAttribPointer (index : Nat) (size : Int) (ty : GLenum) (normalized : Bool)
      (stride : Int) (pointer : Nat)
  | glDrawArrays (mode : GLenum) (first : Int) (count : Int)
deriving DecidableEq, Repr

/-! ## The engine -/

/-- The record `FermatEngine::Impl`. -/
structure Impl where
  ssbo : Nat
  computeShader : Nat
  renderShader : Nat
  count : CInt
deriving DecidableEq

/-- `Impl::init`.  `name` is the buffer name `glGenBuffers` writes into `ssbo`. -/
def Impl.init (T : Target) (s : Impl) (name : Nat) : Impl × List GLCmd :=
  let s1 : Impl := { s with ssbo := name }
  (s1,
    [ GLCmd.glGenBuffers 1,
      GLCmd.glBindBuffer GLenum.GL_SHADER_STORAGE_BUFFER s1.ssbo,
      GLCmd.glBufferData GLenum.GL_SHADER_STORAGE_BUFFER
        (toGLsizeiptr T (mulSizeT T (toSizeT T s1.count.val) T.sizeofParticle))
        none GLenum.GL_DYNAMIC_DRAW,
      GLCmd.glBindBufferBase GLenum.GL_SHADER_STORAGE_BUFFER 0 s1.ssbo ])

/-- `Impl::dispatch`.  `count / 256` is C integer division (truncating), converted to
the `GLuint` parameter of `glDispatchCompute`. -/
def Impl.dispatch (s : Impl) (dt : GLfloat) : Impl × List GLCmd :=
  (s,
    [ GLCmd.glUseProgram s.computeShader,
      GLCmd.glUniform1f 0 dt,
      GLCmd.glDispatchCompute (toGLuint (Int.tdiv s.count.val 256)) 1 1,
      GLCmd.glMemoryBarrier GLbitfield.GL_SHADER_STORAGE_BARRIER_BIT ])

/-- `FermatEngine::step`. -/
def step (s : Impl) (dt : GLfloat) : Impl × List GLCmd :=
  s.dispatch dt

/-- `FermatEngine::render`. -/
def render (T : Target) (s : Impl) : Impl × List GLCmd :=
  (s,
    [ GLCmd.glBindBuffer GLenum.GL_ARRAY_BUFFER s.ssbo,
      GLCmd.glVertexAttribPointer 0 3 GLenum.GL_FLOAT false (toGLsizei T.sizeofParticle) 0,
      GLCmd.glDrawArrays GLenum.GL_POINTS 0 s.count.val ])

/-- A call of the per-frame API. -/
inductive Call
  | step (dt : GLfloat)
  | render
deriving DecidableEq

/-- One call on the engine. -/
def exec (T : Target) (s : Impl) : Call → Impl × List GLCmd
  | Call.step dt => step s dt
  | Call.render => render T s

/-- A finite sequence of calls, in order; the commands are concatenated. -/
def run (T : Target) (s : Impl) : List Call → Impl × List GLCmd
  | [] => (s, [])
  | c :: cs =>
    let r := exec T s c
    let rs := run T r.1 cs
    (rs.1, r.2 ++ rs.2)

/-! ## Reading a command stream -/

/-- Holds of compute dispatches. -/
def GLCmd.isDispatch : GLCmd → Bool
  | GLCmd.glDispatchCompute _ _ _ => true
  | _ => false

/-- Holds of memory barriers. -/
def GLCmd.isBarrier : GLCmd → Bool
  | GLCmd.glMemoryBarrier _ => true
  | _ => false

/-- Holds of draw commands. -/
def GLCmd.isDraw : GLCmd → Bool
  | GLCmd.glDrawArrays _ _ _ => true
  | _ => false

/-- Holds of the commands that create or (re)allocate buffer storage. -/
def GLCmd.isAlloc : GLCmd → Bool
  | GLCmd.glGenBuffers _ => true
  | GLCmd.glBufferData _ _ _ _ => true
  | _ => false

/-- The 64-bit target with a 16-byte `Particle`, used for concrete evaluations. -/
def target64 : Target :=
  { sizeofParticle := 16, sizeBits := 64 }

/-- The 32-bit target (wasm32, as built for the bindings) with a 16-byte `Particle`. -/
def target32 : Target :=
  { sizeofParticle := 16, sizeBits := 32 }

/-- A 64-bit target whose `Particle` record takes `2 ^ 31` bytes. -/
def targetHuge : Target :=
  { sizeofParticle := 2147483648, sizeBits := 64 }

/-- An engine of `2 ^ 28` particles. -/
def engine2p28 : Impl :=
  { ssbo := 1, computeShader := 2, renderShader := 3, count := ⟨268435456, by decide⟩ }

/-- An engine of `2 ^ 27` particles. -/
def engine2p27 : Impl :=
  { ssbo := 1, computeShader := 2, renderShader := 3, count := ⟨134217728, by decide⟩ }

/-- An engine of 100000 particles (the count named in the sources' comments). -/
def engine100k : Impl :=
  { ssbo := 1, computeShader := 2, renderShader := 3, count := ⟨100000, by decide⟩ }

/-- Particles handled by one work group: the compute shader is not among the sources;
`dispatch` divides by 256 and its comment says "in chunks of 256". -/
def WORK_GROUP_SIZE : Nat := 256

/-- Number of shader invocations a command stream schedules: every
`glDispatchCompute x y z` runs `x * y * z` groups of `WORK_GROUP_SIZE` invocations, with
ids `0 .. x * WORK_GROUP_SIZE - 1` along the first dimension, each once. -/
def invocations : List GLCmd → Nat
  | [] => 0
  | GLCmd.glDispatchCompute x y z :: cs => x * y * z * WORK_GROUP_SIZE + invocations cs
  | _ :: cs => invocations cs

/-- Whether a compute dispatch is still waiting for its barrier after the commands of
the list, given whether one was waiting before: a dispatch sets it, a barrier clears it. -/
def pendingAfter (p : Bool) : List GLCmd → Bool
  | [] => p
  | c :: cs => pendingAfter (if c.isDispatch then true else if c.isBarrier then false else p) cs

/-- No draw of the list is issued while a dispatch is waiting for its barrier. -/
def drawsGuarded (p : Bool) : List GLCmd → Bool
  | [] => true
  | c :: cs =>
    (!(c.isDraw && p)) &&
      drawsGuarded (if c.isDispatch then true else if c.isBarrier then false else p) cs

/-! ## Construction and parameters -/

/-- Modelled from the spec: the fatal conditions of construction (specification §7:
`AllocationFailure`, `InvalidParticleCount`).  The sources define no error type. -/
inductive EngineError
  | InvalidParticleCount
  | AllocationFailure
deriving DecidableEq, Repr

/-- Modelled from the spec: `SimulationParameters` (specification §3: "source position,
sink position, lens radius"), the state the setters overwrite.  `Impl` has no field for
them and no source file defines the setters. -/
structure SimulationParameters where
  source : GLfloat × GLfloat × GLfloat
  sink : GLfloat × GLfloat × GLfloat
  lensRadius : GLfloat
deriving DecidableEq

/-- Modelled from the spec: the controller of specification §3 ("single owner of
ParticleBuffer and Parameters"): the `Impl` record of the sources next to the
`SimulationParameters`, which the sources do not store. -/
structure Controller where
  impl : Impl
  params : SimulationParameters
deriving DecidableEq

/-- Modelled from the spec: what construction takes from its collaborators, none of which
is in the sources: the shader program handles (shader loading is out of scope, §1), the
buffer name the driver hands out, whether the device can allocate the storage, and the
default parameters. -/
structure Device where
  computeShader : Nat
  renderShader : Nat
  bufferName : Nat
  allocationOk : Bool
  defaults : SimulationParameters

/-- Modelled from the spec: the constructor `FermatEngine::FermatEngine(int)`, declared in
`FermatEngine.h` and defined in no source file.  Specification §6: "`new(particleCount:
integer > 0)` -> handle; fails fatally on invalid count (<= 0) or allocation failure";
§7: "`InvalidParticleCount` (fatal, caller-supplied <= 0 - reject at construction)"; §4.4:
"allocates ParticleBuffer of that fixed size; initializes default parameters".  The
allocation itself is `Impl::init` of the sources.  The result pairs the outcome with the
commands issued. -/
def construct (T : Target) (dev : Device) (particleCount : CInt) :
    Except EngineError Controller × List GLCmd :=
  if particleCount.val ≤ 0 then (Except.error EngineError.InvalidParticleCount, [])
  else
    let r := Impl.init T
      { ssbo := 0, computeShader := dev.computeShader, renderShader := dev.renderShader,
        count := particleCount } dev.bufferName
    if dev.allocationOk then (Except.ok { impl := r.1, params := dev.defaults }, r.2)
    else (Except.error EngineError.AllocationFailure, r.2)

/-- `FermatEngine::step` of the sources on the controller: it reaches the engine through
`pImpl` only. -/
def Controller.step (c : Controller) (dt : GLfloat) : Controller × List GLCmd :=
  let r := FermatEngine.step c.impl dt
  ({ c with impl := r.1 }, r.2)

/-- A device that hands out buffer name 7 and can allocate, for concrete evaluations. -/
def device0 : Device :=
  { computeShader := 2, renderShader := 3, bufferName := 7, allocationOk := true,
    defaults := { source := (⟨0⟩, ⟨0⟩, ⟨0⟩), sink := (⟨0⟩, ⟨0⟩, ⟨0⟩), lensRadius := ⟨0⟩ } }

/-! ## Basic facts -/

theorem toGLuint_tdiv_256 (c : CInt) (h : 0 ≤ c.val) :
    ((toGLuint (Int.tdiv c.val 256) : Nat) : Int) = c.val / 256 := by
  have hc := c.property
  rw [Int.tdiv_eq_ediv h (by decide)]
  unfold toGLuint
  omega

theorem exec_state (T : Target) (s : Impl) (c : Call) : (exec T s c).1 = s := by
  cases c <;> rfl

theorem run_state (T : Target) (s : Impl) (cs : List Call) : (run T s cs).1 = s := by
  induction cs generalizing s with
  | nil => rfl
  | cons c cs ih =>
    show (run T (exec T s c).1 cs).1 = s
    rw [ih, exec_state]

theorem run_cons (T : Target) (s : Impl) (c : Call) (cs : List Call) :
    (run T s (c :: cs)).2 = (exec T s c).2 ++ (run T s cs).2 := by
  show (exec T s c).2 ++ (run T (exec T s c).1 cs).2 = _
  rw [exec_state]

theorem exec_no_alloc (T : Target) (s : Impl) (c : Call) :
    ∀ g ∈ (exec T s c).2, g.isAlloc = false := by
  cases c <;> simp [exec, step, render, Impl.dispatch, GLCmd.isAlloc]

theorem run_no_alloc (T : Target) (s : Impl) (cs : List Call) :
    ∀ g ∈ (run T s cs).2, g.isAlloc = false := by
  induction cs with
  | nil => simp [run]
  | cons c cs ih =>
    intro g hg
    rw [run_cons, List.mem_append] at hg
    rcases hg with hg | hg
    · exact exec_no_alloc T s c g hg
    · exact ih g hg

theorem toGLsizei_sizeof (T : Target) (h : T.sizeofParticle < 2147483648) :
    toGLsizei T.sizeofParticle = T.sizeofParticle := by
  unfold toGLsizei
  have h1 : T.sizeofParticle % 4294967296 = T.sizeofParticle := Nat.mod_eq_of_lt (by omega)
  rw [h1, if_pos h]

theorem buffer_size_exact (T : Target) (c : CInt) (h : 0 < c.val)
    (hfit : c.val * (T.sizeofParticle : Int) < 2 ^ (T.sizeBits - 1)) :
    toGLsizeiptr T (mulSizeT T (toSizeT T c.val) T.sizeofParticle)
      = c.val * T.sizeofParticle := by
  obtain ⟨n, hn⟩ : ∃ n : Nat, c.val = n := ⟨c.val.toNat, (Int.toNat_of_nonneg h.le).symm⟩
  have hH : n * T.sizeofParticle < 2 ^ (T.sizeBits - 1) := by
    rw [hn] at hfit
    exact_mod_cast hfit
  have hHW : 2 ^ (T.sizeBits - 1) ≤ 2 ^ T.sizeBits :=
    Nat.pow_le_pow_right (by decide) (Nat.sub_le _ _)
  have hW : n * T.sizeofParticle < 2 ^ T.sizeBits := lt_of_lt_of_le hH hHW
  have h1 : toSizeT T c.val = n % 2 ^ T.sizeBits := by
    unfold toSizeT
    rw [hn]
    norm_cast
  have h2 : mulSizeT T (toSizeT T c.val) T.sizeofParticle = n * T.sizeofParticle := by
    unfold mulSizeT
    rw [h1, Nat.mod_mul_mod, Nat.mod_eq_of_lt hW]
  rw [h2, hn]
  unfold toGLsizeiptr
  rw [Nat.mod_eq_of_lt hW, if_pos hH]
  push_cast
  rfl

theorem drawsGuarded_append (p : Bool) (a b : List GLCmd) :
    drawsGuarded p (a ++ b) = (drawsGuarded p a && drawsGuarded (pendingAfter p a) b) := by
  induction a generalizing p with
  | nil => simp [drawsGuarded, pendingAfter]
  | cons c cs ih => simp [drawsGuarded, pendingAfter, ih, Bool.and_assoc]

theorem pendingAfter_append (p : Bool) (a b : List GLCmd) :
    pendingAfter p (a ++ b) = pendingAfter (pendingAfter p a) b := by
  induction a generalizing p with
  | nil => rfl
  | cons c cs ih => simp [pendingAfter, ih]

theorem pendingAfter_no_barrier (mid : List GLCmd) (h : ∀ b ∈ mid, b.isBarrier = false) :
    pendingAfter true mid = true := by
  induction mid with
  | nil => rfl
  | cons c cs ih =>
    have hc : c.isBarrier = false := h c (List.mem_cons_self _ _)
    have hcs : ∀ b ∈ cs, b.isBarrier = false := fun b hb => h b (List.mem_cons_of_mem _ hb)
    simp [pendingAfter, hc, ih hcs]

theorem exec_guarded (T : Target) (s : Impl) (c : Call) :
    drawsGuarded false (exec T s c).2 = true ∧ pendingAfter false (exec T s c).2 = false := by
  cases c <;> exact ⟨rfl, rfl⟩

theorem run_guarded (T : Target) (s : Impl) (cs : List Call) :
    drawsGuarded false (run T s cs).2 = true ∧ pendingAfter false (run T s cs).2 = false := by
  induction cs with
  | nil => exact ⟨rfl, rfl⟩
  | cons c cs ih =>
    rw [run_cons, drawsGuarded_append, pendingAfter_append, (exec_guarded T s c).1,
      (exec_guarded T s c).2]
    exact ⟨by simpa using ih.1, ih.2⟩

theorem guarded_barrier_between (p : Bool) (pre mid post : List GLCmd) (d r : GLCmd)
    (hg : drawsGuarded p (pre ++ d :: (mid ++ r :: post)) = true)
    (hd : d.isDispatch = true) (hr : r.isDraw = true) :
    ∃ b ∈ mid, b.isBarrier = true := by
  by_contra hno
  have hmid : ∀ b ∈ mid, b.isBarrier = false := by
    intro b hb
    cases hb1 : b.isBarrier with
    | false => rfl
    | true => exact absurd ⟨b, hb, hb1⟩ hno
  rw [drawsGuarded_append] at hg
  have h1 : drawsGuarded (pendingAfter p pre) (d :: (mid ++ r :: post)) = true := by
    simp only [Bool.and_eq_true] at hg
    exact hg.2
  simp only [drawsGuarded, hd, if_true, Bool.and_eq_true] at h1
  have h2 := h1.2
  rw [drawsGuarded_append, pendingAfter_no_barrier mid hmid] at h2
  simp [drawsGuarded, hr] at h2

/-- The allocation in `Impl::init` is unconditional: for every count, also zero or
negative, `init` issues `glGenBuffers` and a `glBufferData` on the storage buffer. -/
theorem init_allocates_for_any_count (T : Target) (s : Impl) (name : Nat) :
    GLCmd.glGenBuffers 1 ∈ (s.init T name).2
      ∧ ∃ size, GLCmd.glBufferData GLenum.GL_SHADER_STORAGE_BUFFER size none
          GLenum.GL_DYNAMIC_DRAW ∈ (s.init T name).2 := by
  refine ⟨by simp [Impl.init],
    ⟨toGLsizeiptr T (mulSizeT T (toSizeT T s.count.val) T.sizeofParticle), ?_⟩⟩
  simp [Impl.init]

/-- Construction with a positive count on a device that can allocate yields an engine
with that count, the device's buffer name and shader handles, after the commands of
`Impl::init`. -/
theorem construct_ok (T : Target) (dev : Device) (n : CInt) (h : 0 < n.val)
    (hdev : dev.allocationOk = true) :
    ∃ c : Controller, (construct T dev n).1 = Except.ok c
      ∧ c.impl.count = n ∧ c.impl.ssbo = dev.bufferName
      ∧ (construct T dev n).2 = (c.impl.init T dev.bufferName).2 := by
  unfold construct
  rw [if_neg (by omega), if_pos hdev]
  exact ⟨_, rfl, rfl, rfl, rfl⟩

/-! ## The claims -/

/-- C9: for every `dt`, `step(dt)` issues exactly four commands: it selects the compute
program, uploads `dt` unchanged as the float uniform at location 0, dispatches the compute
work, and ends with a memory barrier, the only one; no command of `step` is a draw, and
the engine record is left as it was. -/
theorem step_command_sequence (s : Impl) (dt : GLfloat) :
    (step s dt).2 =
        [ GLCmd.glUseProgram s.computeShader,
          GLCmd.glUniform1f 0 dt,
          GLCmd.glDispatchCompute (toGLuint (Int.tdiv s.count.val 256)) 1 1,
          GLCmd.glMemoryBarrier GLbitfield.GL_SHADER_STORAGE_BARRIER_BIT ]
      ∧ (step s dt).2.getLast? =
          some (GLCmd.glMemoryBarrier GLbitfield.GL_SHADER_STORAGE_BARRIER_BIT)
      ∧ ((step s dt).2.filter GLCmd.isBarrier).length = 1
      ∧ ((step s dt).2.filter GLCmd.isDispatch).length = 1
      ∧ (step s dt).2.filter GLCmd.isDraw = []
      ∧ (step s dt).1 = s := by
  refine ⟨rfl, rfl, rfl, rfl, rfl, rfl⟩

/-- C10: for every `count >= 0`, `step` issues one `glDispatchCompute g 1 1`, where
`g = count / 256` satisfies `g * 256 <= count` and `count - g * 256 < 256`, and
`g * 256 = count` exactly when 256 divides `count`: no invocation lies past the end of the
buffer. -/
theorem step_dispatch_within_buffer (s : Impl) (dt : GLfloat) (h : 0 ≤ s.count.val) :
    ∃ g : Nat,
      (step s dt).2.filter GLCmd.isDispatch = [GLCmd.glDispatchCompute g 1 1]
        ∧ (g : Int) = s.count.val / 256
        ∧ (g : Int) * 256 ≤ s.count.val
        ∧ s.count.val - (g : Int) * 256 < 256
        ∧ ((g : Int) * 256 = s.count.val ↔ (256 : Int) ∣ s.count.val)
        ∧ (invocations (step s dt).2 : Int) ≤ s.count.val := by
  have hg := toGLuint_tdiv_256 s.count h
  refine ⟨toGLuint (Int.tdiv s.count.val 256), rfl, hg, ?_, ?_, ?_, ?_⟩
  · omega
  · omega
  · constructor
    · intro h1
      exact ⟨toGLuint (Int.tdiv s.count.val 256), by omega⟩
    · rintro ⟨k, hk⟩
      omega
  · have : invocations (step s dt).2 = toGLuint (Int.tdiv s.count.val 256) * 256 := by
      simp [step, Impl.dispatch, invocations, WORK_GROUP_SIZE]
    rw [this]
    push_cast
    omega

/-- Witness of C10 at count = 100000. -/
theorem step_dispatch_within_buffer_witness :
    ∃ g : Nat,
      (step engine100k ⟨0⟩).2.filter GLCmd.isDispatch = [GLCmd.glDispatchCompute g 1 1]
        ∧ (g : Int) = engine100k.count.val / 256
        ∧ (g : Int) * 256 ≤ engine100k.count.val
        ∧ engine100k.count.val - (g : Int) * 256 < 256
        ∧ ((g : Int) * 256 = engine100k.count.val ↔ (256 : Int) ∣ engine100k.count.val)
        ∧ (invocations (step engine100k ⟨0⟩).2 : Int) ≤ engine100k.count.val :=
  step_dispatch_within_buffer engine100k ⟨0⟩ (by decide)

/-- C1 (evaluation at the failing input): with `count = 100000`, `step` passes 390 work
groups to `glDispatchCompute`, which schedules `390 * 256 = 99840` invocations; the 160
particles with indices 99840 .. 99999 get none. -/
theorem step_100000_schedules_99840 :
    ∀ dt : GLfloat,
      (step engine100k dt).2.filter GLCmd.isDispatch = [GLCmd.glDispatchCompute 390 1 1]
        ∧ invocations (step engine100k dt).2 = 99840
        ∧ engine100k.count.val - (invocations (step engine100k dt).2 : Int) = 160 := by
  intro dt
  exact ⟨rfl, rfl, rfl⟩

/-- C4: `render` leaves every field of the engine record unchanged, and a second `render`
right after the first issues the same command sequence. -/
theorem render_idempotent (T : Target) (s : Impl) :
    (render T s).1 = s
      ∧ (render T (render T s).1).2 = (render T s).2
      ∧ (run T s [Call.render, Call.render]).2 = (render T s).2 ++ (render T s).2
      ∧ (run T s [Call.render, Call.render]).1 = s := by
  refine ⟨rfl, rfl, ?_, rfl⟩
  simp [run, exec, render]

/-- C8: after `init`, every sequence of `step` and `render` calls leaves `count` and the
buffer handle at the values they had after `init` (indeed the whole record), and issues no
command that creates or reallocates buffer storage. -/
theorem count_and_buffer_fixed (T : Target) (s : Impl) (name : Nat) (cs : List Call) :
    (run T (s.init T name).1 cs).1.count = (s.init T name).1.count
      ∧ (run T (s.init T name).1 cs).1.ssbo = (s.init T name).1.ssbo
      ∧ (run T (s.init T name).1 cs).1 = (s.init T name).1
      ∧ (s.init T name).1.count = s.count
      ∧ (s.init T name).1.ssbo = name
      ∧ ∀ g ∈ (run T (s.init T name).1 cs).2, g.isAlloc = false := by
  rw [run_state]
  exact ⟨rfl, rfl, rfl, rfl, rfl, run_no_alloc T _ cs⟩

/-- C3: on an engine initialised with any count (so for every count > 0), after any
sequence of `step` and `render` calls, the empty one included, `render` issues exactly
one draw: `glDrawArrays(GL_POINTS, 0, count)`, the last of its commands. -/
theorem render_draws_count_points (T : Target) (s : Impl) (name : Nat) (cs : List Call) :
    (render T (run T (s.init T name).1 cs).1).2.filter GLCmd.isDraw =
        [GLCmd.glDrawArrays GLenum.GL_POINTS 0 s.count.val]
      ∧ (render T (run T (s.init T name).1 cs).1).2.getLast? =
        some (GLCmd.glDrawArrays GLenum.GL_POINTS 0 s.count.val) := by
  rw [run_state]
  exact ⟨rfl, rfl⟩

/-- C2: in the command trace of any finite sequence of `step` and `render` calls, whenever
a draw comes after a compute dispatch, a memory barrier lies between the two; so between a
dispatch and the barrier that follows it there is no draw. -/
theorem barrier_between_dispatch_and_draw (T : Target) (s : Impl) (cs : List Call)
    (pre mid post : List GLCmd) (d r : GLCmd)
    (htrace : (run T s cs).2 = pre ++ d :: (mid ++ r :: post))
    (hd : d.isDispatch = true) (hr : r.isDraw = true) :
    ∃ b ∈ mid, b.isBarrier = true := by
  have hg := (run_guarded T s cs).1
  rw [htrace] at hg
  exact guarded_barrier_between false pre mid post d r hg hd hr

/-- Witness of C2 on the trace of one `step` followed by one `render`. -/
theorem barrier_between_dispatch_and_draw_witness :
    ∃ b ∈ [ GLCmd.glMemoryBarrier GLbitfield.GL_SHADER_STORAGE_BARRIER_BIT,
            GLCmd.glBindBuffer GLenum.GL_ARRAY_BUFFER 1,
            GLCmd.glVertexAttribPointer 0 3 GLenum.GL_FLOAT false 16 0 ],
      b.isBarrier = true :=
  barrier_between_dispatch_and_draw target64 engine100k [Call.step ⟨0⟩, Call.render]
    [GLCmd.glUseProgram 2, GLCmd.glUniform1f 0 ⟨0⟩]
    [ GLCmd.glMemoryBarrier GLbitfield.GL_SHADER_STORAGE_BARRIER_BIT,
      GLCmd.glBindBuffer GLenum.GL_ARRAY_BUFFER 1,
      GLCmd.glVertexAttribPointer 0 3 GLenum.GL_FLOAT false 16 0 ]
    []
    (GLCmd.glDispatchCompute 390 1 1)
    (GLCmd.glDrawArrays GLenum.GL_POINTS 0 100000)
    (by decide) (by decide) (by decide)

/-- C7 (counterexample): on the 32-bit target with a 16-byte `Particle`, `init` with
`count = 2 ^ 28` requests 0 bytes and with `count = 2 ^ 27` requests `-2 ^ 31` bytes,
neither of them `count * sizeof(Particle)`; and with a `Particle` of `2 ^ 31` bytes the
stride `render` passes is `-2 ^ 31`, not `sizeof(Particle)`. -/
theorem init_size_wraps_on_32_bit_target :
    (0 < engine2p28.count.val
      ∧ (engine2p28.init target32 7).2 =
          [ GLCmd.glGenBuffers 1,
            GLCmd.glBindBuffer GLenum.GL_SHADER_STORAGE_BUFFER 7,
            GLCmd.glBufferData GLenum.GL_SHADER_STORAGE_BUFFER 0 none GLenum.GL_DYNAMIC_DRAW,
            GLCmd.glBindBufferBase GLenum.GL_SHADER_STORAGE_BUFFER 0 7 ]
      ∧ engine2p28.count.val * (target32.sizeofParticle : Int) = 4294967296)
    ∧ (0 < engine2p27.count.val
      ∧ (engine2p27.init target32 7).2 =
          [ GLCmd.glGenBuffers 1,
            GLCmd.glBindBuffer GLenum.GL_SHADER_STORAGE_BUFFER 7,
            GLCmd.glBufferData GLenum.GL_SHADER_STORAGE_BUFFER (-2147483648) none
              GLenum.GL_DYNAMIC_DRAW,
            GLCmd.glBindBufferBase GLenum.GL_SHADER_STORAGE_BUFFER 0 7 ]
      ∧ engine2p27.count.val * (target32.sizeofParticle : Int) = 2147483648)
    ∧ (render targetHuge engine100k).2 =
          [ GLCmd.glBindBuffer GLenum.GL_ARRAY_BUFFER 1,
            GLCmd.glVertexAttribPointer 0 3 GLenum.GL_FLOAT false (-2147483648) 0,
            GLCmd.glDrawArrays GLenum.GL_POINTS 0 100000 ] := by
  refine ⟨⟨by decide, by decide, by decide⟩, ⟨by decide, by decide, by decide⟩, by decide⟩

/-- C7 (amended): for every count > 0 whose byte size `count * sizeof(Particle)` is
representable in the signed `GLsizeiptr` of the target, with `sizeof(Particle)`
representable in `GLsizei`, `init` issues one `glBufferData` on the storage buffer, of
exactly `count * sizeof(Particle)` bytes, and binds that buffer at storage binding 0;
`render`, after any sequence of calls, binds the same buffer handle as the array buffer
and describes attribute 0 as 3 floats at byte offset 0 with stride `sizeof(Particle)`. -/
theorem layout_consistent (T : Target) (s : Impl) (name : Nat) (cs : List Call)
    (h : 0 < s.count.val)
    (hfit : s.count.val * (T.sizeofParticle : Int) < 2 ^ (T.sizeBits - 1))
    (hstride : T.sizeofParticle < 2147483648) :
    (s.init T name).2 =
        [ GLCmd.glGenBuffers 1,
          GLCmd.glBindBuffer GLenum.GL_SHADER_STORAGE_BUFFER name,
          GLCmd.glBufferData GLenum.GL_SHADER_STORAGE_BUFFER
            (s.count.val * (T.sizeofParticle : Int)) none GLenum.GL_DYNAMIC_DRAW,
          GLCmd.glBindBufferBase GLenum.GL_SHADER_STORAGE_BUFFER 0 name ]
      ∧ (s.init T name).1.ssbo = name
      ∧ (render T (run T (s.init T name).1 cs).1).2 =
        [ GLCmd.glBindBuffer GLenum.GL_ARRAY_BUFFER name,
          GLCmd.glVertexAttribPointer 0 3 GLenum.GL_FLOAT false (T.sizeofParticle : Int) 0,
          GLCmd.glDrawArrays GLenum.GL_POINTS 0 s.count.val ] := by
  rw [run_state]
  refine ⟨?_, rfl, ?_⟩
  · simp only [Impl.init]
    rw [buffer_size_exact T s.count h hfit]
  · simp only [render, Impl.init]
    rw [toGLsizei_sizeof T hstride]

/-- Witness of C7 at count = 100000 with a 16-byte `Particle`, on the 32-bit target. -/
theorem layout_consistent_witness :
    (engine100k.init target32 7).2 =
        [ GLCmd.glGenBuffers 1,
          GLCmd.glBindBuffer GLenum.GL_SHADER_STORAGE_BUFFER 7,
          GLCmd.glBufferData GLenum.GL_SHADER_STORAGE_BUFFER
            (engine100k.count.val * (target32.sizeofParticle : Int)) none
            GLenum.GL_DYNAMIC_DRAW,
          GLCmd.glBindBufferBase GLenum.GL_SHADER_STORAGE_BUFFER 0 7 ]
      ∧ (engine100k.init target32 7).1.ssbo = 7
      ∧ (render target32 (run target32 (engine100k.init target32 7).1 [Call.step ⟨5⟩]).1).2 =
        [ GLCmd.glBindBuffer GLenum.GL_ARRAY_BUFFER 7,
          GLCmd.glVertexAttribPointer 0 3 GLenum.GL_FLOAT false
            (target32.sizeofParticle : Int) 0,
          GLCmd.glDrawArrays GLenum.GL_POINTS 0 engine100k.count.val ] :=
  layout_consistent target32 engine100k 7 [Call.step ⟨5⟩] (by decide) (by decide) (by decide)

/-- C5: for every `particleCount <= 0`, construction fails with `InvalidParticleCount`
and issues no command at all, so no buffer is created or allocated. -/
theorem construct_rejects_invalid_count (T : Target) (dev : Device) (n : CInt)
    (h : n.val ≤ 0) :
    (construct T dev n).1 = Except.error EngineError.InvalidParticleCount
      ∧ (construct T dev n).2 = []
      ∧ ∀ g ∈ (construct T dev n).2, g.isAlloc = false := by
  unfold construct
  rw [if_pos h]
  exact ⟨rfl, rfl, by simp⟩

/-- Witness of C5 at particleCount = -5. -/
theorem construct_rejects_invalid_count_witness :
    (construct target64 device0 ⟨-5, by decide⟩).1
        = Except.error EngineError.InvalidParticleCount
      ∧ (construct target64 device0 ⟨-5, by decide⟩).2 = []
      ∧ ∀ g ∈ (construct target64 device0 ⟨-5, by decide⟩).2, g.isAlloc = false :=
  construct_rejects_invalid_count target64 device0 ⟨-5, by decide⟩ (by decide)

end FermatEngine
